import Mathlib

/-!
Verification of the dynamic-mode GPIO pin core (`src/gpio/dynamic.rs`).

The `Dynamic` mode enumeration, its predicates (`is_input`, `is_interruptable`,
`is_output`), the register-field encoders (`moder`, `otyper`) and the
`DynamicPin` operations (`make_*`, `set_high`, `set_low`, `is_high`, `is_low`)
are translated directly from the source.  The fixed-mode conversion functions
(`Pin::into_*`, `_set_state`, `_is_low`) and the per-port register words they
mutate live in `src/gpio/mod.rs`, which is not part of the given sources; those
are modelled from the specification (register layout §6, transition effects
§4.3, read-modify-write discipline §5) and carry a `Modelled from the spec:`
doc comment.
-/

namespace Stm32Gpio

/-- Tracks the current pin state for dynamic pins (`enum Dynamic`). -/
inductive Dynamic where
  | InputFloating
  | InputPullUp
  | InputPullDown
  | OutputPushPull
  | OutputOpenDrain
deriving DecidableEq, Repr

/-- Error for `DynamicPin` (`enum PinModeError`). -/
inductive PinModeError where
  | IncorrectMode
deriving DecidableEq, Repr

/-- Desired electrical state of an output pin (`PinState` from the fixed-mode
pin layer). -/
inductive PinState where
  | Low
  | High
deriving DecidableEq, Repr

/-- Is pin in readable mode (`Dynamic::is_input`). -/
def Dynamic.is_input : Dynamic → Bool
  | .InputFloating | .InputPullUp | .InputPullDown | .OutputOpenDrain => true
  | .OutputPushPull => false

/-- Is pin in interruptable mode (`Dynamic::is_interruptable`). -/
def Dynamic.is_interruptable : Dynamic → Bool
  | .InputFloating | .InputPullUp | .InputPullDown | .OutputOpenDrain => true
  | .OutputPushPull => false

/-- Is pin in writable mode (`Dynamic::is_output`). -/
def Dynamic.is_output : Dynamic → Bool
  | .InputFloating | .InputPullUp | .InputPullDown => false
  | .OutputPushPull | .OutputOpenDrain => true

/-- Mode-select field encoding required by a mode (`Dynamic::moder`). -/
def Dynamic.moder : Dynamic → Nat
  | .InputFloating => 0b00
  | .InputPullUp => 0b00
  | .InputPullDown => 0b00
  | .OutputPushPull => 0b01
  | .OutputOpenDrain => 0b01

/-- Output-type field encoding required by a mode, when applicable
(`Dynamic::otyper`). -/
def Dynamic.otyper : Dynamic → Option Nat
  | .OutputPushPull => some 0b00
  | .OutputOpenDrain => some 0b01
  | _ => none

/-- Extract the `width`-bit field at bit offset `off` of the register word
`w`. -/
def getF (w off width : Nat) : Nat :=
  (w >>> off) &&& (2 ^ width - 1)

/-- Modelled from the spec: the read-modify-write of the field of one pin in a
32-bit per-port register word — read the current word, mask out the
`width`-bit field at offset `off`, and merge in the new value `v` (spec §5
"read current word, mask in the new field bits, write back").  The concrete
register accessors live in `src/gpio/mod.rs`, which is not among the given
sources. -/
def setF (w off width v : Nat) : Nat :=
  (w &&& ((2 ^ 32 - 1) ^^^ ((2 ^ width - 1) <<< off))) ||| (v <<< off)

theorem getF_lt (w off width : Nat) : getF w off width < 2 ^ width := by
  have h : (w >>> off) &&& (2 ^ width - 1) ≤ 2 ^ width - 1 := Nat.and_le_right
  have hp : 0 < 2 ^ width := Nat.pos_pow_of_pos width (by omega)
  unfold getF
  omega

theorem testBit_getF (w off width i : Nat) :
    (getF w off width).testBit i = (decide (i < width) && w.testBit (off + i)) := by
  unfold getF
  simp [Nat.testBit_and, Nat.testBit_shiftRight, Bool.and_comm]

theorem testBit_setF (w off width v i : Nat) :
    (setF w off width v).testBit i =
      ((w.testBit i && (decide (i < 32) ^^ (decide (i ≥ off) && decide (i - off < width))))
        || (decide (i ≥ off) && v.testBit (i - off))) := by
  unfold setF
  simp [Nat.testBit_or, Nat.testBit_and, Nat.testBit_xor, Nat.testBit_shiftLeft,
    Nat.testBit_two_pow_sub_one]
  rw [show (4294967295 : Nat) = 2 ^ 32 - 1 from by norm_num,
    Nat.testBit_two_pow_sub_one]

/-- Reading back the field just written returns the written value. -/
theorem getF_setF_self (w off width v : Nat) (hv : v < 2 ^ width)
    (hw : off + width ≤ 32) :
    getF (setF w off width v) off width = v := by
  apply Nat.eq_of_testBit_eq
  intro i
  rw [testBit_getF, testBit_setF]
  by_cases hi : i < width
  · have h32 : off + i < 32 := by omega
    have hoffi : off + i ≥ off := by omega
    have hsub : off + i - off = i := by omega
    simp [hi, h32, hoffi, hsub]
  · have hvlt : v.testBit i = false := Nat.testBit_lt_two_pow (by
      calc v < 2 ^ width := hv
        _ ≤ 2 ^ i := Nat.pow_le_pow_right (by omega) (by omega))
    simp [hi, hvlt]

/-- A field write leaves every disjoint field of the same 32-bit word
unchanged. -/
theorem getF_setF_other (w off width v off' width' : Nat) (hv : v < 2 ^ width)
    (hw' : off' + width' ≤ 32)
    (hdisj : off + width ≤ off' ∨ off' + width' ≤ off) :
    getF (setF w off width v) off' width' = getF w off' width' := by
  apply Nat.eq_of_testBit_eq
  intro i
  rw [testBit_getF, testBit_getF, testBit_setF]
  by_cases hi : i < width'
  · have h32 : off' + i < 32 := by omega
    have hout : ¬ (off' + i ≥ off ∧ off' + i - off < width) := by omega
    by_cases hge : off' + i ≥ off
    · have hsub : ¬ (off' + i - off < width) := fun h => hout ⟨hge, h⟩
      have hvbit : v.testBit (off' + i - off) = false := Nat.testBit_lt_two_pow (by
        calc v < 2 ^ width := hv
          _ ≤ 2 ^ (off' + i - off) := Nat.pow_le_pow_right (by omega) (by omega))
      simp [hi, h32, hge, hsub, hvbit]
    · simp [hi, h32, hge]
  · simp [hi]

/-- Modelled from the spec: the shared per-port register file (spec §3, §6) —
one 32-bit word each for the mode-select (`MODER`), output-type (`OTYPER`) and
pull-configuration (`PUPDR`) configuration registers, plus the output-data and
input-data registers.  The concrete register types live in `src/gpio/mod.rs`,
which is not among the given sources. -/
structure Port where
  moder : Nat
  otyper : Nat
  pupdr : Nat
  odr : Nat
  idr : Nat
deriving DecidableEq, Repr

/-- Modelled from the spec: `Pin::into_floating_input` (spec §4.3) — write
mode-select field = `00` and pull-configuration field = `00` for pin index
`n` only. -/
def into_floating_input (n : Nat) (p : Port) : Port :=
  { p with moder := setF p.moder (2 * n) 2 0b00,
           pupdr := setF p.pupdr (2 * n) 2 0b00 }

/-- Modelled from the spec: `Pin::into_pull_up_input` (spec §4.3) — write
mode-select field = `00` and pull-configuration field = `01` for pin index
`n` only. -/
def into_pull_up_input (n : Nat) (p : Port) : Port :=
  { p with moder := setF p.moder (2 * n) 2 0b00,
           pupdr := setF p.pupdr (2 * n) 2 0b01 }

/-- Modelled from the spec: `Pin::into_pull_down_input` (spec §4.3) — write
mode-select field = `00` and pull-configuration field = `10` for pin index
`n` only. -/
def into_pull_down_input (n : Nat) (p : Port) : Port :=
  { p with moder := setF p.moder (2 * n) 2 0b00,
           pupdr := setF p.pupdr (2 * n) 2 0b10 }

/-- Modelled from the spec: `Pin::into_push_pull_output` (spec §4.3) — write
mode-select field = `01` and output-type bit = `0` for pin index `n` only. -/
def into_push_pull_output (n : Nat) (p : Port) : Port :=
  { p with moder := setF p.moder (2 * n) 2 0b01,
           otyper := setF p.otyper n 1 0b0 }

/-- Modelled from the spec: `Pin::into_open_drain_output` (spec §4.3) — write
mode-select field = `01` and output-type bit = `1` for pin index `n` only. -/
def into_open_drain_output (n : Nat) (p : Port) : Port :=
  { p with moder := setF p.moder (2 * n) 2 0b01,
           otyper := setF p.otyper n 1 0b1 }

/-- Modelled from the spec: `Pin::_set_state` (spec §6) — the atomic
single-bit set/clear primitive on the output-data register for pin index
`n`. -/
def pin_set_state (n : Nat) (s : PinState) (p : Port) : Port :=
  { p with odr := setF p.odr n 1 (match s with | .High => 1 | .Low => 0) }

/-- Modelled from the spec: `Pin::_is_low` (spec §6) — the single-bit read
primitive on the input-data register: the pin is low when its sensed
input-data bit is `0`. -/
def pin_is_low (n : Nat) (p : Port) : Bool :=
  getF p.idr n 1 == 0

/-- Modelled from the spec: `Pin::into_push_pull_output_in_state` (spec §4.3)
— apply the requested output-data state immediately before the mode-select
write, then configure push-pull output. -/
def into_push_pull_output_in_state (n : Nat) (s : PinState) (p : Port) : Port :=
  into_push_pull_output n (pin_set_state n s p)

/-- Modelled from the spec: `Pin::into_open_drain_output_in_state` (spec §4.3)
— apply the requested output-data state immediately before the mode-select
write, then configure open-drain output. -/
def into_open_drain_output_in_state (n : Nat) (s : PinState) (p : Port) : Port :=
  into_open_drain_output n (pin_set_state n s p)

/-- Pin type with dynamic mode (`struct DynamicPin`): holds the tracked
current pin mode.  The pin index `n` appears as an explicit argument of each
operation (in the source it is the const generic `N`). -/
structure DynamicPin where
  mode : Dynamic
deriving DecidableEq, Repr

/-- `DynamicPin::new`. -/
def DynamicPin.new (mode : Dynamic) : DynamicPin :=
  { mode := mode }

/-- `DynamicPin::make_pull_up_input`: performs the fixed-mode conversion on
the port registers and records the new tracked mode. -/
def DynamicPin.make_pull_up_input (_pin : DynamicPin) (n : Nat) (p : Port) :
    DynamicPin × Port :=
  ({ mode := Dynamic.InputPullUp }, into_pull_up_input n p)

/-- `DynamicPin::make_pull_down_input`. -/
def DynamicPin.make_pull_down_input (_pin : DynamicPin) (n : Nat) (p : Port) :
    DynamicPin × Port :=
  ({ mode := Dynamic.InputPullDown }, into_pull_down_input n p)

/-- `DynamicPin::make_floating_input`. -/
def DynamicPin.make_floating_input (_pin : DynamicPin) (n : Nat) (p : Port) :
    DynamicPin × Port :=
  ({ mode := Dynamic.InputFloating }, into_floating_input n p)

/-- `DynamicPin::make_push_pull_output`. -/
def DynamicPin.make_push_pull_output (_pin : DynamicPin) (n : Nat) (p : Port) :
    DynamicPin × Port :=
  ({ mode := Dynamic.OutputPushPull }, into_push_pull_output n p)

/-- `DynamicPin::make_push_pull_output_in_state`. -/
def DynamicPin.make_push_pull_output_in_state (_pin : DynamicPin) (n : Nat)
    (s : PinState) (p : Port) : DynamicPin × Port :=
  ({ mode := Dynamic.OutputPushPull }, into_push_pull_output_in_state n s p)

/-- `DynamicPin::make_open_drain_output`. -/
def DynamicPin.make_open_drain_output (_pin : DynamicPin) (n : Nat) (p : Port) :
    DynamicPin × Port :=
  ({ mode := Dynamic.OutputOpenDrain }, into_open_drain_output n p)

/-- `DynamicPin::make_open_drain_output_in_state`. -/
def DynamicPin.make_open_drain_output_in_state (_pin : DynamicPin) (n : Nat)
    (s : PinState) (p : Port) : DynamicPin × Port :=
  ({ mode := Dynamic.OutputOpenDrain }, into_open_drain_output_in_state n s p)

/-- `DynamicPin::set_high`: if the tracked mode is writable, drive the pin
high; otherwise return `IncorrectMode` touching nothing.  Returns the result,
the (`&mut self`) pin and the port state after the call. -/
def DynamicPin.set_high (pin : DynamicPin) (n : Nat) (p : Port) :
    Except PinModeError Unit × DynamicPin × Port :=
  if pin.mode.is_output then
    (Except.ok (), pin, pin_set_state n PinState.High p)
  else
    (Except.error PinModeError.IncorrectMode, pin, p)

/-- `DynamicPin::set_low`. -/
def DynamicPin.set_low (pin : DynamicPin) (n : Nat) (p : Port) :
    Except PinModeError Unit × DynamicPin × Port :=
  if pin.mode.is_output then
    (Except.ok (), pin, pin_set_state n PinState.Low p)
  else
    (Except.error PinModeError.IncorrectMode, pin, p)

/-- `DynamicPin::is_low`: if the tracked mode is readable, return the sensed
low-ness of the pin; otherwise return `IncorrectMode`.  Takes the pin by
shared reference in the source, so no state is returned. -/
def DynamicPin.is_low (pin : DynamicPin) (n : Nat) (p : Port) :
    Except PinModeError Bool :=
  if pin.mode.is_input then
    Except.ok (pin_is_low n p)
  else
    Except.error PinModeError.IncorrectMode

/-- `DynamicPin::is_high`: `self.is_low().map(|b| !b)`. -/
def DynamicPin.is_high (pin : DynamicPin) (n : Nat) (p : Port) :
    Except PinModeError Bool :=
  (pin.is_low n p).map (fun b => !b)

/-- The tracked mode `m` agrees with the hardware configuration encoded in
the port registers at pin index `n`: the mode-select field holds the
mode-select encoding of `m`, the output-type field holds the output-type
encoding of `m` when `m` has one, and for input modes the pull-configuration
field holds the pull setting the mode requires (`00` none, `01` pull-up,
`10` pull-down). -/
def modeAgrees (n : Nat) (m : Dynamic) (p : Port) : Prop :=
  getF p.moder (2 * n) 2 = m.moder ∧
  (match m.otyper with
   | some v => getF p.otyper n 1 = v
   | none => True) ∧
  (match m with
   | Dynamic.InputFloating => getF p.pupdr (2 * n) 2 = 0b00
   | Dynamic.InputPullUp => getF p.pupdr (2 * n) 2 = 0b01
   | Dynamic.InputPullDown => getF p.pupdr (2 * n) 2 = 0b10
   | Dynamic.OutputPushPull => True
   | Dynamic.OutputOpenDrain => True)

theorem modeAgrees_floating (n : Nat) (p : Port) (hn : n < 16) :
    modeAgrees n Dynamic.InputFloating (into_floating_input n p) := by
  refine ⟨?_, trivial, ?_⟩
  · exact getF_setF_self p.moder (2 * n) 2 0 (by norm_num) (by omega)
  · exact getF_setF_self p.pupdr (2 * n) 2 0 (by norm_num) (by omega)

theorem modeAgrees_pull_up (n : Nat) (p : Port) (hn : n < 16) :
    modeAgrees n Dynamic.InputPullUp (into_pull_up_input n p) := by
  refine ⟨?_, trivial, ?_⟩
  · exact getF_setF_self p.moder (2 * n) 2 0 (by norm_num) (by omega)
  · exact getF_setF_self p.pupdr (2 * n) 2 1 (by norm_num) (by omega)

theorem modeAgrees_pull_down (n : Nat) (p : Port) (hn : n < 16) :
    modeAgrees n Dynamic.InputPullDown (into_pull_down_input n p) := by
  refine ⟨?_, trivial, ?_⟩
  · exact getF_setF_self p.moder (2 * n) 2 0 (by norm_num) (by omega)
  · exact getF_setF_self p.pupdr (2 * n) 2 2 (by norm_num) (by omega)

theorem modeAgrees_push_pull (n : Nat) (p : Port) (hn : n < 16) :
    modeAgrees n Dynamic.OutputPushPull (into_push_pull_output n p) := by
  refine ⟨?_, ?_, trivial⟩
  · exact getF_setF_self p.moder (2 * n) 2 1 (by norm_num) (by omega)
  · exact getF_setF_self p.otyper n 1 0 (by norm_num) (by omega)

theorem modeAgrees_open_drain (n : Nat) (p : Port) (hn : n < 16) :
    modeAgrees n Dynamic.OutputOpenDrain (into_open_drain_output n p) := by
  refine ⟨?_, ?_, trivial⟩
  · exact getF_setF_self p.moder (2 * n) 2 1 (by norm_num) (by omega)
  · exact getF_setF_self p.otyper n 1 1 (by norm_num) (by omega)

/-- The three shared per-port configuration register fields belonging to pin
index `j`: mode-select, output-type and pull-configuration. -/
def configFieldsAt (j : Nat) (p : Port) : Nat × Nat × Nat :=
  (getF p.moder (2 * j) 2, getF p.otyper j 1, getF p.pupdr (2 * j) 2)

theorem getF2_frame (w n j v : Nat) (hj : j < 16) (hne : j ≠ n) (hv : v < 4) :
    getF (setF w (2 * n) 2 v) (2 * j) 2 = getF w (2 * j) 2 :=
  getF_setF_other w (2 * n) 2 v (2 * j) 2 hv (by omega) (by omega)

theorem getF1_frame (w n j v : Nat) (hj : j < 16) (hne : j ≠ n) (hv : v < 2) :
    getF (setF w n 1 v) j 1 = getF w j 1 :=
  getF_setF_other w n 1 v j 1 hv (by omega) (by omega)

theorem configFrame_floating (n j : Nat) (p : Port) (hj : j < 16) (hne : j ≠ n) :
    configFieldsAt j (into_floating_input n p) = configFieldsAt j p := by
  show (getF (setF p.moder (2 * n) 2 0) (2 * j) 2, getF p.otyper j 1,
      getF (setF p.pupdr (2 * n) 2 0) (2 * j) 2) = _
  rw [getF2_frame p.moder n j 0 hj hne (by norm_num),
    getF2_frame p.pupdr n j 0 hj hne (by norm_num)]
  rfl

theorem configFrame_pull_up (n j : Nat) (p : Port) (hj : j < 16) (hne : j ≠ n) :
    configFieldsAt j (into_pull_up_input n p) = configFieldsAt j p := by
  show (getF (setF p.moder (2 * n) 2 0) (2 * j) 2, getF p.otyper j 1,
      getF (setF p.pupdr (2 * n) 2 1) (2 * j) 2) = _
  rw [getF2_frame p.moder n j 0 hj hne (by norm_num),
    getF2_frame p.pupdr n j 1 hj hne (by norm_num)]
  rfl

theorem configFrame_pull_down (n j : Nat) (p : Port) (hj : j < 16) (hne : j ≠ n) :
    configFieldsAt j (into_pull_down_input n p) = configFieldsAt j p := by
  show (getF (setF p.moder (2 * n) 2 0) (2 * j) 2, getF p.otyper j 1,
      getF (setF p.pupdr (2 * n) 2 2) (2 * j) 2) = _
  rw [getF2_frame p.moder n j 0 hj hne (by norm_num),
    getF2_frame p.pupdr n j 2 hj hne (by norm_num)]
  rfl

theorem configFrame_push_pull (n j : Nat) (p : Port) (hj : j < 16) (hne : j ≠ n) :
    configFieldsAt j (into_push_pull_output n p) = configFieldsAt j p := by
  show (getF (setF p.moder (2 * n) 2 1) (2 * j) 2, getF (setF p.otyper n 1 0) j 1,
      getF p.pupdr (2 * j) 2) = _
  rw [getF2_frame p.moder n j 1 hj hne (by norm_num),
    getF1_frame p.otyper n j 0 hj hne (by norm_num)]
  rfl

theorem configFrame_open_drain (n j : Nat) (p : Port) (hj : j < 16) (hne : j ≠ n) :
    configFieldsAt j (into_open_drain_output n p) = configFieldsAt j p := by
  show (getF (setF p.moder (2 * n) 2 1) (2 * j) 2, getF (setF p.otyper n 1 1) j 1,
      getF p.pupdr (2 * j) 2) = _
  rw [getF2_frame p.moder n j 1 hj hne (by norm_num),
    getF1_frame p.otyper n j 1 hj hne (by norm_num)]
  rfl

theorem configFieldsAt_set_state (j n : Nat) (s : PinState) (p : Port) :
    configFieldsAt j (pin_set_state n s p) = configFieldsAt j p := rfl

/-- C1: after each of the transition operations (the five `make_*` targets,
including the two `_in_state` output variants) the tracked `Dynamic` mode
agrees with the configuration encoded in the hardware registers, and the
guarded accessors that mutate state (`set_high`, `set_low`) preserve that
agreement — each operation is a single state transformation that updates
register fields and tracked mode together, never one without the other. -/
theorem spec_c1_tracked_mode_matches_hardware (pin : DynamicPin) (n : Nat)
    (s : PinState) (p : Port) (hn : n < 16) :
    modeAgrees n (pin.make_floating_input n p).1.mode (pin.make_floating_input n p).2 ∧
    modeAgrees n (pin.make_pull_up_input n p).1.mode (pin.make_pull_up_input n p).2 ∧
    modeAgrees n (pin.make_pull_down_input n p).1.mode (pin.make_pull_down_input n p).2 ∧
    modeAgrees n (pin.make_push_pull_output n p).1.mode (pin.make_push_pull_output n p).2 ∧
    modeAgrees n (pin.make_push_pull_output_in_state n s p).1.mode
      (pin.make_push_pull_output_in_state n s p).2 ∧
    modeAgrees n (pin.make_open_drain_output n p).1.mode (pin.make_open_drain_output n p).2 ∧
    modeAgrees n (pin.make_open_drain_output_in_state n s p).1.mode
      (pin.make_open_drain_output_in_state n s p).2 ∧
    (modeAgrees n pin.mode p →
      modeAgrees n (pin.set_high n p).2.1.mode (pin.set_high n p).2.2 ∧
      modeAgrees n (pin.set_low n p).2.1.mode (pin.set_low n p).2.2) := by
  refine ⟨modeAgrees_floating n p hn, modeAgrees_pull_up n p hn,
    modeAgrees_pull_down n p hn, modeAgrees_push_pull n p hn,
    modeAgrees_push_pull n (pin_set_state n s p) hn,
    modeAgrees_open_drain n p hn,
    modeAgrees_open_drain n (pin_set_state n s p) hn, ?_⟩
  intro hagree
  constructor <;> by_cases h : pin.mode.is_output = true <;>
    simp only [DynamicPin.set_high, DynamicPin.set_low, h, Bool.false_eq_true,
      if_true, if_false, Bool.not_eq_true] <;>
    exact hagree

/-- Witness for C1 at pin index 3 of an all-zero port. -/
theorem spec_c1_witness :
    modeAgrees 3
      (((DynamicPin.new Dynamic.OutputPushPull).make_pull_up_input 3 ⟨0, 0, 0, 0, 0⟩).1.mode)
      (((DynamicPin.new Dynamic.OutputPushPull).make_pull_up_input 3 ⟨0, 0, 0, 0, 0⟩).2) :=
  (spec_c1_tracked_mode_matches_hardware (DynamicPin.new Dynamic.OutputPushPull) 3
    PinState.High ⟨0, 0, 0, 0, 0⟩ (by decide)).2.1

/-- C2: `set_high` and `set_low` succeed exactly when the tracked mode is
writable (`is_output`); on success they perform the single-bit output-data
write for this pin index (and touch no configuration register), on failure
they return `IncorrectMode` and leave the whole port untouched. -/
theorem spec_c2_set_guarded_by_is_output (pin : DynamicPin) (n : Nat) (p : Port)
    (hn : n < 16) :
    ((pin.set_high n p).1 = Except.ok () ↔ pin.mode.is_output = true) ∧
    ((pin.set_low n p).1 = Except.ok () ↔ pin.mode.is_output = true) ∧
    (pin.mode.is_output = true →
      (pin.set_high n p).2.2 = pin_set_state n PinState.High p ∧
      getF ((pin.set_high n p).2.2).odr n 1 = 1 ∧
      ((pin.set_high n p).2.2).moder = p.moder ∧
      ((pin.set_high n p).2.2).otyper = p.otyper ∧
      ((pin.set_high n p).2.2).pupdr = p.pupdr ∧
      (pin.set_low n p).2.2 = pin_set_state n PinState.Low p ∧
      getF ((pin.set_low n p).2.2).odr n 1 = 0 ∧
      ((pin.set_low n p).2.2).moder = p.moder ∧
      ((pin.set_low n p).2.2).otyper = p.otyper ∧
      ((pin.set_low n p).2.2).pupdr = p.pupdr) ∧
    (pin.mode.is_output = false →
      (pin.set_high n p).1 = Except.error PinModeError.IncorrectMode ∧
      (pin.set_high n p).2.2 = p ∧
      (pin.set_low n p).1 = Except.error PinModeError.IncorrectMode ∧
      (pin.set_low n p).2.2 = p) := by
  by_cases h : pin.mode.is_output = true
  · refine ⟨by simp [DynamicPin.set_high, h], by simp [DynamicPin.set_low, h],
      fun _ => ?_, fun hf => absurd h (by simp [hf])⟩
    refine ⟨by simp [DynamicPin.set_high, h], ?_,
      by simp [DynamicPin.set_high, h, pin_set_state],
      by simp [DynamicPin.set_high, h, pin_set_state],
      by simp [DynamicPin.set_high, h, pin_set_state],
      by simp [DynamicPin.set_low, h], ?_,
      by simp [DynamicPin.set_low, h, pin_set_state],
      by simp [DynamicPin.set_low, h, pin_set_state],
      by simp [DynamicPin.set_low, h, pin_set_state]⟩
    · simp only [DynamicPin.set_high, h, if_true, pin_set_state]
      exact getF_setF_self p.odr n 1 1 (by norm_num) (by omega)
    · simp only [DynamicPin.set_low, h, if_true, pin_set_state]
      exact getF_setF_self p.odr n 1 0 (by norm_num) (by omega)
  · refine ⟨by simp [DynamicPin.set_high, h], by simp [DynamicPin.set_low, h],
      fun ht => absurd ht h, fun _ => ?_⟩
    exact ⟨by simp [DynamicPin.set_high, h], by simp [DynamicPin.set_high, h],
      by simp [DynamicPin.set_low, h], by simp [DynamicPin.set_low, h]⟩

/-- Witness for C2: in push-pull output mode at pin 3 of an all-zero port,
`set_high` succeeds. -/
theorem spec_c2_witness :
    ((DynamicPin.new Dynamic.OutputPushPull).set_high 3 ⟨0, 0, 0, 0, 0⟩).1 =
      Except.ok () :=
  ((spec_c2_set_guarded_by_is_output (DynamicPin.new Dynamic.OutputPushPull) 3
    ⟨0, 0, 0, 0, 0⟩ (by decide)).1).mpr rfl

/-- C3: `is_low` succeeds exactly when the tracked mode is readable
(`is_input`); on success its value reflects the physical input-data bit of
this pin index (`true` exactly when the sensed bit is `0`), and on failure
it returns `IncorrectMode`. -/
theorem spec_c3_is_low_guarded_by_is_input (pin : DynamicPin) (n : Nat) (p : Port) :
    ((∃ b, pin.is_low n p = Except.ok b) ↔ pin.mode.is_input = true) ∧
    (pin.mode.is_input = true →
      pin.is_low n p = Except.ok (getF p.idr n 1 == 0)) ∧
    (pin.mode.is_input = false →
      pin.is_low n p = Except.error PinModeError.IncorrectMode) := by
  by_cases h : pin.mode.is_input = true
  · exact ⟨by simp [DynamicPin.is_low, h], fun _ => by
      simp [DynamicPin.is_low, h, pin_is_low], fun hf => absurd h (by simp [hf])⟩
  · exact ⟨by simp [DynamicPin.is_low, h], fun ht => absurd ht h, fun _ => by
      simp [DynamicPin.is_low, h]⟩

/-- Witness for C3: in floating-input mode at pin 3 of an all-zero port,
`is_low` returns `true`. -/
theorem spec_c3_witness :
    (DynamicPin.new Dynamic.InputFloating).is_low 3 ⟨0, 0, 0, 0, 0⟩ =
      Except.ok true :=
  (spec_c3_is_low_guarded_by_is_input (DynamicPin.new Dynamic.InputFloating) 3
    ⟨0, 0, 0, 0, 0⟩).2.1 rfl

/-- C4: `is_high` is the derived view of `is_low` — whenever `is_low`
succeeds with value `b`, `is_high` succeeds with `!b`, and whenever `is_low`
fails, `is_high` fails with the same error; it is defined by mapping over the
result of `is_low` and performs no register access of its own. -/
theorem spec_c4_is_high_negates_is_low (pin : DynamicPin) (n : Nat) (p : Port) :
    (∀ b, pin.is_low n p = Except.ok b → pin.is_high n p = Except.ok (!b)) ∧
    (∀ e, pin.is_low n p = Except.error e → pin.is_high n p = Except.error e) := by
  constructor <;> intro x h <;> simp [DynamicPin.is_high, h, Except.map]

/-- Witness for C4: at a floating input over an all-zero port, `is_low` is
`ok true`, and applying C4 gives `is_high = ok false`. -/
theorem spec_c4_witness :
    (DynamicPin.new Dynamic.InputFloating).is_high 3 ⟨0, 0, 0, 0, 0⟩ =
      Except.ok false :=
  (spec_c4_is_high_negates_is_low (DynamicPin.new Dynamic.InputFloating) 3
    ⟨0, 0, 0, 0, 0⟩).1 true rfl

/-- C5: from every source mode `src` (all five `Dynamic` variants), every
transition operation — including the `_in_state` output variants — is defined
and leaves the tracked mode equal to its target: the transition graph is
fully connected with no forbidden sequences. -/
theorem spec_c5_transition_graph_fully_connected (src : Dynamic) (n : Nat)
    (s : PinState) (p : Port) :
    ((DynamicPin.new src).make_floating_input n p).1.mode = Dynamic.InputFloating ∧
    ((DynamicPin.new src).make_pull_up_input n p).1.mode = Dynamic.InputPullUp ∧
    ((DynamicPin.new src).make_pull_down_input n p).1.mode = Dynamic.InputPullDown ∧
    ((DynamicPin.new src).make_push_pull_output n p).1.mode = Dynamic.OutputPushPull ∧
    ((DynamicPin.new src).make_push_pull_output_in_state n s p).1.mode =
      Dynamic.OutputPushPull ∧
    ((DynamicPin.new src).make_open_drain_output n p).1.mode = Dynamic.OutputOpenDrain ∧
    ((DynamicPin.new src).make_open_drain_output_in_state n s p).1.mode =
      Dynamic.OutputOpenDrain :=
  ⟨rfl, rfl, rfl, rfl, rfl, rfl, rfl⟩

/-- C6: every transition operation leaves the configuration register fields
(mode-select, output-type, pull-configuration) of every other pin index `j`
of the same port unchanged bit-for-bit. -/
theorem spec_c6_other_pins_unchanged (pin : DynamicPin) (n j : Nat)
    (s : PinState) (p : Port) (hj : j < 16) (hne : j ≠ n) :
    configFieldsAt j (pin.make_floating_input n p).2 = configFieldsAt j p ∧
    configFieldsAt j (pin.make_pull_up_input n p).2 = configFieldsAt j p ∧
    configFieldsAt j (pin.make_pull_down_input n p).2 = configFieldsAt j p ∧
    configFieldsAt j (pin.make_push_pull_output n p).2 = configFieldsAt j p ∧
    configFieldsAt j (pin.make_push_pull_output_in_state n s p).2 = configFieldsAt j p ∧
    configFieldsAt j (pin.make_open_drain_output n p).2 = configFieldsAt j p ∧
    configFieldsAt j (pin.make_open_drain_output_in_state n s p).2 = configFieldsAt j p := by
  refine ⟨configFrame_floating n j p hj hne, configFrame_pull_up n j p hj hne,
    configFrame_pull_down n j p hj hne, configFrame_push_pull n j p hj hne, ?_,
    configFrame_open_drain n j p hj hne, ?_⟩
  · exact (configFrame_push_pull n j (pin_set_state n s p) hj hne).trans
      (configFieldsAt_set_state j n s p)
  · exact (configFrame_open_drain n j (pin_set_state n s p) hj hne).trans
      (configFieldsAt_set_state j n s p)

/-- Witness for C6: reconfiguring pin 3 leaves the fields of pin 5
unchanged on a port whose registers are all ones. -/
theorem spec_c6_witness :
    configFieldsAt 5
      ((DynamicPin.new Dynamic.InputFloating).make_push_pull_output 3
        ⟨4294967295, 4294967295, 4294967295, 0, 0⟩).2 =
      configFieldsAt 5 ⟨4294967295, 4294967295, 4294967295, 0, 0⟩ :=
  (spec_c6_other_pins_unchanged (DynamicPin.new Dynamic.InputFloating) 3 5
    PinState.High ⟨4294967295, 4294967295, 4294967295, 0, 0⟩ (by decide)
    (by decide)).2.2.2.1

/-- C7: the capability predicates match the specification table on all five
variants — `is_input` holds for the three input modes and open-drain output
but not push-pull output, `is_interruptable` coincides with `is_input`
everywhere, and `is_output` holds exactly for the two output modes. -/
theorem spec_c7_capability_table :
    Dynamic.is_input Dynamic.InputFloating = true ∧
    Dynamic.is_input Dynamic.InputPullUp = true ∧
    Dynamic.is_input Dynamic.InputPullDown = true ∧
    Dynamic.is_input Dynamic.OutputPushPull = false ∧
    Dynamic.is_input Dynamic.OutputOpenDrain = true ∧
    Dynamic.is_interruptable Dynamic.InputFloating = true ∧
    Dynamic.is_interruptable Dynamic.InputPullUp = true ∧
    Dynamic.is_interruptable Dynamic.InputPullDown = true ∧
    Dynamic.is_interruptable Dynamic.OutputPushPull = false ∧
    Dynamic.is_interruptable Dynamic.OutputOpenDrain = true ∧
    Dynamic.is_output Dynamic.InputFloating = false ∧
    Dynamic.is_output Dynamic.InputPullUp = false ∧
    Dynamic.is_output Dynamic.InputPullDown = false ∧
    Dynamic.is_output Dynamic.OutputPushPull = true ∧
    Dynamic.is_output Dynamic.OutputOpenDrain = true ∧
    (∀ m : Dynamic, Dynamic.is_interruptable m = Dynamic.is_input m) := by
  refine ⟨rfl, rfl, rfl, rfl, rfl, rfl, rfl, rfl, rfl, rfl, rfl, rfl, rfl, rfl, rfl, ?_⟩
  intro m
  cases m <;> rfl

/-- C8: the register-field encoders return exactly the table values —
`moder` gives `00` for the three input variants and `01` for the two output
variants, and `otyper` gives `some 0` for push-pull, `some 1` for open-drain
and `none` for every input variant. -/
theorem spec_c8_encoder_table :
    Dynamic.moder Dynamic.InputFloating = 0b00 ∧
    Dynamic.moder Dynamic.InputPullUp = 0b00 ∧
    Dynamic.moder Dynamic.InputPullDown = 0b00 ∧
    Dynamic.moder Dynamic.OutputPushPull = 0b01 ∧
    Dynamic.moder Dynamic.OutputOpenDrain = 0b01 ∧
    Dynamic.otyper Dynamic.InputFloating = none ∧
    Dynamic.otyper Dynamic.InputPullUp = none ∧
    Dynamic.otyper Dynamic.InputPullDown = none ∧
    Dynamic.otyper Dynamic.OutputPushPull = some 0b00 ∧
    Dynamic.otyper Dynamic.OutputOpenDrain = some 0b01 :=
  ⟨rfl, rfl, rfl, rfl, rfl, rfl, rfl, rfl, rfl, rfl⟩

/-- C9: the three input-mode transitions write only the mode-select and
pull-configuration registers — setting mode-select `00` and
pull-configuration `00`/`01`/`10` respectively at this pin index — and leave
the output-type register word (and the data registers) at their previous
values. -/
theorem spec_c9_input_transitions_preserve_otyper (pin : DynamicPin) (n : Nat)
    (p : Port) (hn : n < 16) :
    ((pin.make_floating_input n p).2.otyper = p.otyper ∧
     (pin.make_floating_input n p).2.odr = p.odr ∧
     (pin.make_floating_input n p).2.idr = p.idr ∧
     getF (pin.make_floating_input n p).2.moder (2 * n) 2 = 0b00 ∧
     getF (pin.make_floating_input n p).2.pupdr (2 * n) 2 = 0b00) ∧
    ((pin.make_pull_up_input n p).2.otyper = p.otyper ∧
     (pin.make_pull_up_input n p).2.odr = p.odr ∧
     (pin.make_pull_up_input n p).2.idr = p.idr ∧
     getF (pin.make_pull_up_input n p).2.moder (2 * n) 2 = 0b00 ∧
     getF (pin.make_pull_up_input n p).2.pupdr (2 * n) 2 = 0b01) ∧
    ((pin.make_pull_down_input n p).2.otyper = p.otyper ∧
     (pin.make_pull_down_input n p).2.odr = p.odr ∧
     (pin.make_pull_down_input n p).2.idr = p.idr ∧
     getF (pin.make_pull_down_input n p).2.moder (2 * n) 2 = 0b00 ∧
     getF (pin.make_pull_down_input n p).2.pupdr (2 * n) 2 = 0b10) := by
  refine ⟨⟨rfl, rfl, rfl, ?_, ?_⟩, ⟨rfl, rfl, rfl, ?_, ?_⟩, ⟨rfl, rfl, rfl, ?_, ?_⟩⟩
  · exact getF_setF_self p.moder (2 * n) 2 0 (by norm_num) (by omega)
  · exact getF_setF_self p.pupdr (2 * n) 2 0 (by norm_num) (by omega)
  · exact getF_setF_self p.moder (2 * n) 2 0 (by norm_num) (by omega)
  · exact getF_setF_self p.pupdr (2 * n) 2 1 (by norm_num) (by omega)
  · exact getF_setF_self p.moder (2 * n) 2 0 (by norm_num) (by omega)
  · exact getF_setF_self p.pupdr (2 * n) 2 2 (by norm_num) (by omega)

/-- Witness for C9: making pin 3 a pull-up input on a port with all-ones
output-type register leaves that register word untouched. -/
theorem spec_c9_witness :
    ((DynamicPin.new Dynamic.OutputPushPull).make_pull_up_input 3
      ⟨0, 4294967295, 0, 0, 0⟩).2.otyper = (4294967295 : Nat) :=
  (spec_c9_input_transitions_preserve_otyper (DynamicPin.new Dynamic.OutputPushPull)
    3 ⟨0, 4294967295, 0, 0, 0⟩ (by decide)).2.1.1

/-- C10: the guarded accessors never change the tracked mode — `set_high`
and `set_low` return the pin handle with its tracked `Dynamic` value intact
in both the success and the error case, and `is_low` / `is_high` take the
handle by shared reference (embedded as pure functions of it), so only the
`make_*` operations ever mutate the tracked mode. -/
theorem spec_c10_accessors_preserve_mode (pin : DynamicPin) (n : Nat) (p : Port) :
    (pin.set_high n p).2.1 = pin ∧ (pin.set_low n p).2.1 = pin := by
  constructor <;> by_cases h : pin.mode.is_output = true <;>
    simp [DynamicPin.set_high, DynamicPin.set_low, h]

end Stm32Gpio
